import Mathlib

/-!
Verification development for the SRTP packet orchestrator (srtp.go).

The orchestrator functions `decryptRTP`, `DecryptRTP`, `encryptRTP` and
`EncryptRTP` are embedded directly from the source file. Collaborators that
the source consumes as capabilities (the authenticated-encryption transform,
the header codec, the replay detector) and repository code outside the given
source file (sequence state, rollover reconstruction, buffer growth) are
modelled from the specification, as noted on each definition.

Machine integers are modelled as `Nat`; a 16-bit wire sequence number is a
`Nat` below 65536 and a rollover counter is a `Nat` below 2^32, with explicit
wraparound where the specification calls for it.
-/

namespace Srtp

/-- Fields of an RTP header that this package reads: the source identifier
(SSRC, a 32-bit value) and the 16-bit wire sequence number. -/
structure RtpHeader where
  ssrc : Nat
  sequenceNumber : Nat
deriving DecidableEq, Repr

/-- Errors produced or propagated by the orchestrator. `errTooShortRTP`
carries the observed ciphertext length; `duplicated` carries the protocol
name, the source identifier and the index field of the duplicate-packet
error; `cipherFailure` stands for an arbitrary error value coming out of the
transform collaborator. -/
inductive SrtpError where
  | errTooShortRTP : Nat → SrtpError
  | duplicated : String → Nat → Nat → SrtpError
  | errMKINotFound : SrtpError
  | errExceededMaxPackets : SrtpError
  | headerParseFailure : SrtpError
  | cipherFailure : String → SrtpError
deriving DecidableEq, Repr

/-- Byte buffer with explicit backing storage: `storage` is the backing
array, `len` the current logical length (a Go slice with its capacity being
the storage length). -/
structure Buffer where
  storage : List Nat
  len : Nat
deriving DecidableEq, Repr

/-- Logical content of a buffer: the first `len` bytes of the backing
storage. -/
def bufView (b : Buffer) : List Nat := b.storage.take b.len

/-- Modelled from the spec: the authenticated transform capability (the
`srtpCipher` implementations live outside the given source file). It offers
the two tag-length queries, key-tag extraction, and the decrypt and encrypt
operations, each of which may fail. -/
structure Cipher where
  authTagRTPLen : Except SrtpError Nat
  aeadAuthTagLen : Except SrtpError Nat
  getMKI : List Nat → Bool → List Nat
  decryptFn : Buffer → List Nat → RtpHeader → Nat → Nat → Except SrtpError Buffer
  encryptFn : Buffer → RtpHeader → List Nat → Nat → Except SrtpError Buffer

/-- Modelled from the spec: per-source Sequence State (`srtpSSRCState`,
outside the given source file). The replay detector capability is modelled
concretely as the list of indices already accepted: `check` succeeds exactly
when the index is not in the list, and the deferred mark-as-valid commit
conses the index onto it. -/
structure SrtpSSRCState where
  ssrc : Nat
  rolloverCounter : Nat
  rolloverHasProcessed : Bool
  lastSequenceNumber : Nat
  replayDetector : List Nat
deriving DecidableEq, Repr

/-- Session context: the send-side cipher, the send-side MKI bytes, the
decrypt-side MKI registry (an association list standing for the Go map), and
the per-source state registry. -/
structure Context where
  cipher : Cipher
  sendMKI : List Nat
  mkis : List (List Nat × Cipher)
  srtpSSRCStates : List (Nat × SrtpSSRCState)

/-- Modelled from the spec: the fresh Sequence State created on first
reference of a source identifier (rollover counter zero, bootstrap sentinel
unset, empty replay history). -/
def defaultState (ssrc : Nat) : SrtpSSRCState :=
  { ssrc := ssrc, rolloverCounter := 0, rolloverHasProcessed := false,
    lastSequenceNumber := 0, replayDetector := [] }

/-- Lookup in the per-source registry. -/
def findState : List (Nat × SrtpSSRCState) → Nat → Option SrtpSSRCState
  | [], _ => none
  | (k, v) :: rest, ssrc => if k = ssrc then some v else findState rest ssrc

/-- Replace the entry for a key in the registry, appending when absent. -/
def updateAssoc : List (Nat × SrtpSSRCState) → Nat → SrtpSSRCState →
    List (Nat × SrtpSSRCState)
  | [], k, v => [(k, v)]
  | (k1, v1) :: rest, k, v =>
    if k1 = k then (k, v) :: rest else (k1, v1) :: updateAssoc rest k v

/-- Modelled from the spec: `getSRTPSSRCState` (outside the given source
file) resolves the Sequence State for a source identifier, lazily creating
and registering a fresh one on first reference. It returns the state
together with the context after this possible creation. -/
def getSRTPSSRCState (c : Context) (ssrc : Nat) : SrtpSSRCState × Context :=
  match findState c.srtpSSRCStates ssrc with
  | some s => (s, c)
  | none =>
    (defaultState ssrc,
     { c with srtpSSRCStates := c.srtpSSRCStates ++ [(ssrc, defaultState ssrc)] })

/-- Write back the Sequence State of a source identifier (in Go this is a
mutation through the pointer held in the registry). -/
def setSRTPSSRCState (c : Context) (ssrc : Nat) (s : SrtpSSRCState) : Context :=
  { c with srtpSSRCStates := updateAssoc c.srtpSSRCStates ssrc s }

/-- Observed Sequence State of a source: the registered one, or the fresh
default when the source has not been referenced yet. -/
def stateOf (c : Context) (ssrc : Nat) : SrtpSSRCState :=
  (getSRTPSSRCState c ssrc).1

/-- Observed replay history of a source. -/
def seenOf (c : Context) (ssrc : Nat) : List Nat :=
  (stateOf c ssrc).replayDetector

/-- Modelled from the spec: the Rollover Reconstruction Algorithm
(`nextRolloverCount`, outside the given source file). Given the stored
state and a new wire sequence number it returns the guessed rollover
counter, the signed state delta, and the session budget overflow flag.
Bootstrap accepts the sequence number as is; otherwise the quadrant
heuristic over the 16-bit space applies: upper-quarter stored versus
lower-quarter incoming means a forward wrap (overflow when the counter sits
at the 32-bit ceiling, the guess wrapping like a uint32), lower-quarter
stored versus upper-quarter incoming means a late packet of the previous
epoch (no prior epoch when the counter is zero), and anything else leaves
the counter unchanged. -/
def nextRolloverCount (s : SrtpSSRCState) (seq : Nat) : Nat × Int × Bool :=
  if s.rolloverHasProcessed = false then
    (s.rolloverCounter, 0, false)
  else if 49152 ≤ s.lastSequenceNumber ∧ seq < 16384 then
    if s.rolloverCounter = 4294967295 then
      ((s.rolloverCounter + 1) % 4294967296, 1, true)
    else
      (s.rolloverCounter + 1, 1, false)
  else if s.lastSequenceNumber < 16384 ∧ 49152 ≤ seq then
    if s.rolloverCounter = 0 then
      (s.rolloverCounter, 0, false)
    else
      (s.rolloverCounter - 1, -1, false)
  else
    (s.rolloverCounter, 0, false)

/-- Modelled from the spec: the commit step of the Rollover Reconstruction
(`updateRolloverCount`, outside the given source file). Bootstrap records
the sequence number and sets the sentinel; a forward wrap advances the
counter (with uint32 wraparound) and records the sequence number; a late
packet of the previous epoch must not regress the state, so nothing
changes; otherwise the high-water sequence number advances monotonically. -/
def updateRolloverCount (s : SrtpSSRCState) (seq : Nat) (diff : Int) :
    SrtpSSRCState :=
  if s.rolloverHasProcessed = false then
    { s with rolloverHasProcessed := true, lastSequenceNumber := seq }
  else if 0 < diff then
    { s with rolloverCounter := (s.rolloverCounter + 1) % 4294967296,
             lastSequenceNumber := seq }
  else if diff < 0 then
    s
  else if s.lastSequenceNumber < seq then
    { s with lastSequenceNumber := seq }
  else
    s

/-- Modelled from the spec: the Buffer Sizing Helper (`growBufferSize`,
outside the given source file). When the capacity of the destination buffer
already suffices, its backing storage is reused and only the length is set;
otherwise fresh storage of the required length is allocated and the current
content copied over, the remainder zero-filled. -/
def growBufferSize (buf : Buffer) (size : Nat) : Buffer :=
  if size ≤ buf.storage.length then
    { storage := buf.storage, len := size }
  else
    { storage := bufView buf ++ List.replicate (size - (bufView buf).length) 0,
      len := size }

/-- Lookup of a decrypt cipher by MKI bytes (the Go map indexed by the
string of the tag bytes). -/
def findMKI : List (List Nat × Cipher) → List Nat → Option Cipher
  | [], _ => none
  | (k, v) :: rest, key => if k = key then some v else findMKI rest key

/-- Key-tag resolution step of decryptRTP: with a non-empty MKI registry the
wire-extracted tag selects the cipher, failing with ErrMKINotFound when no
entry matches; otherwise the session cipher is used. -/
def resolveCipher (c : Context) (ciphertext : List Nat) : Except SrtpError Cipher :=
  if 0 < c.mkis.length then
    match findMKI c.mkis (c.cipher.getMKI ciphertext true) with
    | some cip => .ok cip
    | none => .error .errMKINotFound
  else
    .ok c.cipher

/-- Embedding of Context.decryptRTP from the source file: tag-length
queries, the minimum-length check against headerLen + aeadAuthTagLen +
len(sendMKI) + authTagLen, lazy state resolution, rollover reconstruction
(the overflow flag discarded), the replay check on the index
(roc <<< 16) ||| sequenceNumber, key-tag resolution, destination sizing to
len(ciphertext) - authTagLen - len(sendMKI), the transform call, and on
success the deferred replay mark followed by the rollover commit. The
resulting context is returned alongside the result. -/
def decryptRTP (c : Context) (dst : Buffer) (ciphertext : List Nat)
    (header : RtpHeader) (headerLen : Nat) : Except SrtpError Buffer × Context :=
  match c.cipher.authTagRTPLen with
  | .error e => (.error e, c)
  | .ok authTagLen =>
    match c.cipher.aeadAuthTagLen with
    | .error e => (.error e, c)
    | .ok aeadAuthTagLen =>
      if ciphertext.length < headerLen + aeadAuthTagLen + c.sendMKI.length + authTagLen then
        (.error (.errTooShortRTP ciphertext.length), c)
      else
        let gp := getSRTPSSRCState c header.ssrc
        let ssrcState := gp.1
        let c1 := gp.2
        let rv := nextRolloverCount ssrcState header.sequenceNumber
        let index := (rv.1 <<< 16) ||| header.sequenceNumber
        if index ∈ ssrcState.replayDetector then
          (.error (.duplicated "srtp" header.ssrc header.sequenceNumber), c1)
        else
          match resolveCipher c ciphertext with
          | .error e => (.error e, c1)
          | .ok cipher =>
            let dst1 := growBufferSize dst (ciphertext.length - authTagLen - c.sendMKI.length)
            match cipher.decryptFn dst1 ciphertext header headerLen rv.1 with
            | .error e => (.error e, c1)
            | .ok out =>
              let marked := { ssrcState with replayDetector := index :: ssrcState.replayDetector }
              (.ok out,
               setSRTPSSRCState c1 header.ssrc
                 (updateRolloverCount marked header.sequenceNumber rv.2.1))

/-- Embedding of Context.encryptRTP from the source file: state resolution,
rollover reconstruction, immediate failure with errExceededMaxPackets on
overflow, otherwise the unconditional state commit followed by the
transform call. -/
def encryptRTP (c : Context) (dst : Buffer) (header : RtpHeader)
    (payload : List Nat) : Except SrtpError Buffer × Context :=
  let gp := getSRTPSSRCState c header.ssrc
  let s := gp.1
  let c1 := gp.2
  let rv := nextRolloverCount s header.sequenceNumber
  if rv.2.2 then
    (.error .errExceededMaxPackets, c1)
  else
    let c2 := setSRTPSSRCState c1 header.ssrc
      (updateRolloverCount s header.sequenceNumber rv.2.1)
    (c2.cipher.encryptFn dst header payload rv.1, c2)

/-- Modelled from the spec: the header codec capability. Unmarshal parses
the leading bytes into a header and reports the header length. -/
def HeaderCodec : Type := List Nat → Except SrtpError (RtpHeader × Nat)

/-- Embedding of Context.DecryptRTP from the source file: a nil header is
replaced by a fresh one, and either way the header used is the one the
codec re-unmarshals from the wire bytes (the Go Unmarshal repopulates every
field of the supplied header, which therefore acts purely as an output
parameter); an unmarshal failure is returned with the context unchanged. -/
def DecryptRTP (u : HeaderCodec) (c : Context) (dst : Buffer)
    (encrypted : List Nat) (header : Option RtpHeader) :
    Except SrtpError Buffer × Context :=
  match u encrypted with
  | .error e => (.error e, c)
  | .ok hp => decryptRTP c dst encrypted hp.1 hp.2

/-- Embedding of Context.EncryptRTP from the source file: a nil header is
replaced by a fresh one, the header is re-unmarshaled from the plaintext,
and the payload past the header is encrypted; an unmarshal failure is
returned with the context unchanged. -/
def EncryptRTP (u : HeaderCodec) (c : Context) (dst : Buffer)
    (plaintext : List Nat) (header : Option RtpHeader) :
    Except SrtpError Buffer × Context :=
  match u plaintext with
  | .error e => (.error e, c)
  | .ok hp => encryptRTP c dst hp.1 (plaintext.drop hp.2)

/-- Candidate 48-bit packet index that decryptRTP presents for a header in a
given context: the guessed rollover counter shifted left 16 bits, or-ed with
the wire sequence number. -/
def presentedIndex (c : Context) (h : RtpHeader) : Nat :=
  ((nextRolloverCount (stateOf c h.ssrc) h.sequenceNumber).1 <<< 16) |||
    h.sequenceNumber

/-- Predicate on a cipher: none of its consulted operations ever produces
the budget-exhaustion error (which in the source only the sender-side
rollover reconstruction raises). -/
def cipherNoBudget (cp : Cipher) : Prop :=
  cp.authTagRTPLen ≠ .error .errExceededMaxPackets ∧
  cp.aeadAuthTagLen ≠ .error .errExceededMaxPackets ∧
  ∀ d ct h hl roc, cp.decryptFn d ct h hl roc ≠ .error .errExceededMaxPackets

/-- Predicate on a context: the session cipher and every registered MKI
cipher satisfy cipherNoBudget. -/
def ctxNoBudget (c : Context) : Prop :=
  cipherNoBudget c.cipher ∧ ∀ p ∈ c.mkis, cipherNoBudget p.2

/-- Arguments of one decryptRTP call in a session trace. -/
structure DecIn where
  dst : Buffer
  ciphertext : List Nat
  header : RtpHeader
  headerLen : Nat

/-- Run of a sequence of decryptRTP calls against an evolving context,
collecting for every successful call the pair of its source identifier and
the 48-bit index it presented. -/
def runDecrypts : Context → List DecIn → List (Nat × Nat) × Context
  | c, [] => ([], c)
  | c, d :: ds =>
    let r := decryptRTP c d.dst d.ciphertext d.header d.headerLen
    let rest := runDecrypts r.2 ds
    match r.1 with
    | .ok _ => ((d.header.ssrc, presentedIndex c d.header) :: rest.1, rest.2)
    | .error _ => rest

/-- Transform used by the concrete witnesses: zero-length tags, empty key
tag, decryption returning the sized destination buffer, encryption emitting
the marshalled header followed by the payload. -/
def wCipher : Cipher :=
  { authTagRTPLen := .ok 0, aeadAuthTagLen := .ok 0,
    getMKI := fun _ _ => [],
    decryptFn := fun d _ _ _ _ => .ok d,
    encryptFn := fun _ h payload _ =>
      .ok { storage := [h.ssrc, h.sequenceNumber] ++ payload,
            len := 2 + payload.length } }

/-- Empty destination buffer used by the witnesses. -/
def wDst : Buffer := { storage := [], len := 0 }

/-- Fresh single-key witness context. -/
def wCtx0 : Context :=
  { cipher := wCipher, sendMKI := [], mkis := [], srtpSSRCStates := [] }

/-- Witness header: source 5, sequence 65535 (upper quarter). -/
def wHdr1 : RtpHeader := { ssrc := 5, sequenceNumber := 65535 }

/-- Witness header: source 5, sequence 10 (lower quarter). -/
def wHdr2 : RtpHeader := { ssrc := 5, sequenceNumber := 10 }

/-- First witness decrypt: sequence 65535 bootstraps source 5. -/
def wStep1 : Except SrtpError Buffer × Context :=
  decryptRTP wCtx0 wDst [1, 2, 3, 4] wHdr1 2

/-- Second witness decrypt: sequence 10 after 65535 wraps the rollover
counter of source 5 to 1, giving packet index 65546. -/
def wStep2 : Except SrtpError Buffer × Context :=
  decryptRTP wStep1.2 wDst [1, 2, 3, 4] wHdr2 2

/-- Witness context whose source 5 stands at the rollover ceiling. -/
def wCtxMax : Context :=
  { cipher := wCipher, sendMKI := [], mkis := [],
    srtpSSRCStates :=
      [(5, { ssrc := 5, rolloverCounter := 4294967295,
             rolloverHasProcessed := true, lastSequenceNumber := 65535,
             replayDetector := [] })] }

/-- Witness header triggering a forward wrap at the ceiling. -/
def wHdrWrap : RtpHeader := { ssrc := 5, sequenceNumber := 0 }

/-- Session cipher of the multi-key witness context: its key-tag extractor
reports the two-byte wire MKI [1, 2]. -/
def wCipherM : Cipher :=
  { authTagRTPLen := .ok 0, aeadAuthTagLen := .ok 0,
    getMKI := fun _ _ => [1, 2],
    decryptFn := fun d _ _ _ _ => .ok d,
    encryptFn := fun _ h payload _ =>
      .ok { storage := [h.ssrc, h.sequenceNumber] ++ payload,
            len := 2 + payload.length } }

/-- Multi-key witness context: one-byte send-side MKI [9], and a registry
binding the two-byte wire MKI [1, 2] to wCipher. -/
def wCtxMulti : Context :=
  { cipher := wCipherM, sendMKI := [9], mkis := [([1, 2], wCipher)],
    srtpSSRCStates := [] }

/-- Witness trace for the uniqueness theorem: two fresh packets, then a
replay of the second. -/
def wDs : List DecIn :=
  [{ dst := wDst, ciphertext := [1, 2, 3, 4], header := wHdr1, headerLen := 2 },
   { dst := wDst, ciphertext := [1, 2, 3, 4], header := wHdr2, headerLen := 2 },
   { dst := wDst, ciphertext := [1, 2, 3, 4], header := wHdr2, headerLen := 2 }]

/-- Witness header codec: the first byte is the source identifier, the
second the sequence number, and the header length is two; shorter inputs
fail to parse. -/
def wCodec : HeaderCodec := fun l =>
  match l with
  | a :: b :: _ => .ok ({ ssrc := a, sequenceNumber := b }, 2)
  | _ => .error .headerParseFailure

/-- Witness header of the round-trip scenarios: source 5, sequence 7. -/
def wHdrRT : RtpHeader := { ssrc := 5, sequenceNumber := 7 }

/-- Round-trip witness cipher (single key, no tags): encryption emits the
marshalled header followed by the payload, decryption returns the whole
ciphertext. -/
def wCipherRT : Cipher :=
  { authTagRTPLen := .ok 0, aeadAuthTagLen := .ok 0,
    getMKI := fun _ _ => [],
    decryptFn := fun _ ct _ _ _ => .ok { storage := ct, len := ct.length },
    encryptFn := fun _ h payload _ =>
      .ok { storage := [h.ssrc, h.sequenceNumber] ++ payload,
            len := 2 + payload.length } }

/-- Round-trip witness context, single-key configuration. -/
def wCtxRT : Context :=
  { cipher := wCipherRT, sendMKI := [], mkis := [], srtpSSRCStates := [] }

/-- Decrypt cipher of the multi-key round-trip witness: strips the one-byte
key tag from the end of the ciphertext. -/
def wCipherRT2 : Cipher :=
  { authTagRTPLen := .ok 0, aeadAuthTagLen := .ok 0,
    getMKI := fun ct _ => ct.drop (ct.length - 1),
    decryptFn := fun _ ct _ _ _ =>
      .ok { storage := ct.take (ct.length - 1), len := ct.length - 1 },
    encryptFn := fun _ h payload _ =>
      .ok { storage := [h.ssrc, h.sequenceNumber] ++ payload ++ [7],
            len := 3 + payload.length } }

/-- Session cipher of the multi-key round-trip witness: appends the key tag
[7] and extracts it from the end of the wire bytes. -/
def wCipherRTM : Cipher :=
  { authTagRTPLen := .ok 0, aeadAuthTagLen := .ok 0,
    getMKI := fun ct _ => ct.drop (ct.length - 1),
    decryptFn := fun _ ct _ _ _ =>
      .ok { storage := ct.take (ct.length - 1), len := ct.length - 1 },
    encryptFn := fun _ h payload _ =>
      .ok { storage := [h.ssrc, h.sequenceNumber] ++ payload ++ [7],
            len := 3 + payload.length } }

/-- Round-trip witness context, multi-key-tag configuration: send-side MKI
[7], registry binding tag [7] to the stripping cipher. -/
def wCtxRTM : Context :=
  { cipher := wCipherRTM, sendMKI := [7], mkis := [([7], wCipherRT2)],
    srtpSSRCStates := [] }

theorem stateOf_eq (c : Context) (s : Nat) :
    stateOf c s = match findState c.srtpSSRCStates s with
      | some v => v
      | none => defaultState s := by
  unfold stateOf getSRTPSSRCState
  cases findState c.srtpSSRCStates s <;> rfl

theorem findState_append (l1 l2 : List (Nat × SrtpSSRCState)) (s : Nat) :
    findState (l1 ++ l2) s =
      match findState l1 s with
      | some v => some v
      | none => findState l2 s := by
  induction l1 with
  | nil => simp [findState]
  | cons p rest ih =>
    obtain ⟨k, v⟩ := p
    by_cases hk : k = s
    · simp [findState, hk]
    · simp [findState, hk, ih]

theorem stateOf_getSRTPSSRCState (c : Context) (ssrc s : Nat) :
    stateOf (getSRTPSSRCState c ssrc).2 s = stateOf c s := by
  unfold getSRTPSSRCState
  cases h : findState c.srtpSSRCStates ssrc with
  | some v => rfl
  | none =>
    rw [stateOf_eq, stateOf_eq]
    simp only [findState_append]
    cases hs : findState c.srtpSSRCStates s with
    | some w => rfl
    | none =>
      by_cases he : ssrc = s
      · subst he
        simp [findState]
      · simp [findState, he]

theorem findState_updateAssoc (l : List (Nat × SrtpSSRCState)) (k : Nat)
    (v : SrtpSSRCState) (s : Nat) :
    findState (updateAssoc l k v) s = if k = s then some v else findState l s := by
  induction l with
  | nil =>
    by_cases h : k = s <;> simp [updateAssoc, findState, h]
  | cons p rest ih =>
    obtain ⟨k1, v1⟩ := p
    by_cases h1 : k1 = k
    · subst h1
      by_cases h2 : k1 = s <;> simp [updateAssoc, findState, h2]
    · by_cases h2 : k1 = s
      · subst h2
        have hks : ¬ k = k1 := fun hh => h1 hh.symm
        simp [updateAssoc, findState, h1, hks]
      · simp [updateAssoc, findState, h1, h2, ih]

theorem stateOf_setSRTPSSRCState (c : Context) (k : Nat) (v : SrtpSSRCState)
    (s : Nat) :
    stateOf (setSRTPSSRCState c k v) s = if k = s then v else stateOf c s := by
  rw [stateOf_eq, stateOf_eq]
  unfold setSRTPSSRCState
  simp only [findState_updateAssoc]
  by_cases h : k = s
  · simp [h]
  · simp only [if_neg h]

theorem updateRolloverCount_replayDetector (s : SrtpSSRCState) (seq : Nat)
    (diff : Int) :
    (updateRolloverCount s seq diff).replayDetector = s.replayDetector := by
  unfold updateRolloverCount
  split
  · rfl
  · split
    · rfl
    · split
      · rfl
      · split <;> rfl

theorem decryptRTP_tooShort (c : Context) (dst : Buffer) (ct : List Nat)
    (h : RtpHeader) (hl aLen bLen : Nat)
    (hA : c.cipher.authTagRTPLen = .ok aLen)
    (hB : c.cipher.aeadAuthTagLen = .ok bLen)
    (hshort : ct.length < hl + bLen + c.sendMKI.length + aLen) :
    decryptRTP c dst ct h hl = (.error (.errTooShortRTP ct.length), c) := by
  unfold decryptRTP
  rw [hA, hB]
  dsimp only
  rw [if_pos hshort]

theorem decryptRTP_duplicate (c : Context) (dst : Buffer) (ct : List Nat)
    (h : RtpHeader) (hl aLen bLen : Nat)
    (hA : c.cipher.authTagRTPLen = .ok aLen)
    (hB : c.cipher.aeadAuthTagLen = .ok bLen)
    (hlen : ¬ ct.length < hl + bLen + c.sendMKI.length + aLen)
    (hidx : presentedIndex c h ∈ (stateOf c h.ssrc).replayDetector) :
    decryptRTP c dst ct h hl =
      (.error (.duplicated "srtp" h.ssrc h.sequenceNumber),
       (getSRTPSSRCState c h.ssrc).2) := by
  unfold decryptRTP
  rw [hA, hB]
  dsimp only
  rw [if_neg hlen]
  simp only [presentedIndex, stateOf] at hidx
  rw [if_pos hidx]

theorem decryptRTP_transform (c : Context) (dst : Buffer) (ct : List Nat)
    (h : RtpHeader) (hl aLen bLen : Nat) (cip : Cipher)
    (hA : c.cipher.authTagRTPLen = .ok aLen)
    (hB : c.cipher.aeadAuthTagLen = .ok bLen)
    (hlen : ¬ ct.length < hl + bLen + c.sendMKI.length + aLen)
    (hidx : presentedIndex c h ∉ (stateOf c h.ssrc).replayDetector)
    (hres : resolveCipher c ct = .ok cip) :
    (decryptRTP c dst ct h hl).1 =
      cip.decryptFn (growBufferSize dst (ct.length - aLen - c.sendMKI.length))
        ct h hl (nextRolloverCount (stateOf c h.ssrc) h.sequenceNumber).1 := by
  simp only [presentedIndex, stateOf] at hidx ⊢
  unfold decryptRTP
  rw [hA, hB]
  dsimp only
  rw [if_neg hlen]
  rw [if_neg hidx, hres]
  dsimp only
  cases cip.decryptFn (growBufferSize dst (ct.length - aLen - c.sendMKI.length))
      ct h hl (nextRolloverCount (getSRTPSSRCState c h.ssrc).1 h.sequenceNumber).1 <;> rfl

theorem decryptRTP_ok_eq (c : Context) (dst : Buffer) (ct : List Nat)
    (h : RtpHeader) (hl aLen bLen : Nat) (cip : Cipher) (out : Buffer)
    (hA : c.cipher.authTagRTPLen = .ok aLen)
    (hB : c.cipher.aeadAuthTagLen = .ok bLen)
    (hlen : ¬ ct.length < hl + bLen + c.sendMKI.length + aLen)
    (hidx : presentedIndex c h ∉ (stateOf c h.ssrc).replayDetector)
    (hres : resolveCipher c ct = .ok cip)
    (hdec : cip.decryptFn (growBufferSize dst (ct.length - aLen - c.sendMKI.length))
        ct h hl (nextRolloverCount (stateOf c h.ssrc) h.sequenceNumber).1 = .ok out) :
    decryptRTP c dst ct h hl =
      (.ok out,
       setSRTPSSRCState (getSRTPSSRCState c h.ssrc).2 h.ssrc
         (updateRolloverCount
           { stateOf c h.ssrc with
             replayDetector := presentedIndex c h :: (stateOf c h.ssrc).replayDetector }
           h.sequenceNumber
           (nextRolloverCount (stateOf c h.ssrc) h.sequenceNumber).2.1)) := by
  simp only [presentedIndex, stateOf] at hidx hdec ⊢
  unfold decryptRTP
  rw [hA, hB]
  dsimp only
  rw [if_neg hlen]
  rw [if_neg hidx, hres]
  dsimp only
  rw [hdec]

theorem decryptRTP_errorTransform (c : Context) (dst : Buffer) (ct : List Nat)
    (h : RtpHeader) (hl aLen bLen : Nat) (cip : Cipher) (e : SrtpError)
    (hA : c.cipher.authTagRTPLen = .ok aLen)
    (hB : c.cipher.aeadAuthTagLen = .ok bLen)
    (hlen : ¬ ct.length < hl + bLen + c.sendMKI.length + aLen)
    (hidx : presentedIndex c h ∉ (stateOf c h.ssrc).replayDetector)
    (hres : resolveCipher c ct = .ok cip)
    (hdec : cip.decryptFn (growBufferSize dst (ct.length - aLen - c.sendMKI.length))
        ct h hl (nextRolloverCount (stateOf c h.ssrc) h.sequenceNumber).1 = .error e) :
    decryptRTP c dst ct h hl = (.error e, (getSRTPSSRCState c h.ssrc).2) := by
  simp only [presentedIndex, stateOf] at hidx hdec ⊢
  unfold decryptRTP
  rw [hA, hB]
  dsimp only
  rw [if_neg hlen]
  rw [if_neg hidx, hres]
  dsimp only
  rw [hdec]

theorem growBufferSize_len (buf : Buffer) (size : Nat) :
    (growBufferSize buf size).len = size := by
  unfold growBufferSize
  split <;> rfl

theorem growBufferSize_capacity (buf : Buffer) (size : Nat) :
    size ≤ (growBufferSize buf size).storage.length := by
  unfold growBufferSize
  split
  · assumption
  · dsimp only
    rw [List.length_append, List.length_replicate]
    have hv : (bufView buf).length ≤ buf.storage.length := by
      unfold bufView
      simp [List.length_take]
    omega

theorem growBufferSize_reuse (buf : Buffer) (size : Nat)
    (hcap : size ≤ buf.storage.length) :
    (growBufferSize buf size).storage = buf.storage := by
  unfold growBufferSize
  rw [if_pos hcap]

theorem findMKI_mem (l : List (List Nat × Cipher)) (key : List Nat) (v : Cipher)
    (hf : findMKI l key = some v) : ∃ k, (k, v) ∈ l := by
  induction l with
  | nil => exact absurd hf (by simp [findMKI])
  | cons p rest ih =>
    obtain ⟨k1, v1⟩ := p
    by_cases hk : k1 = key
    · refine ⟨k1, ?_⟩
      simp only [findMKI, if_pos hk] at hf
      simp [← Option.some_inj.mp hf]
    · simp only [findMKI, if_neg hk] at hf
      obtain ⟨k2, hk2⟩ := ih hf
      exact ⟨k2, List.mem_cons_of_mem _ hk2⟩

theorem resolveCipher_error (c : Context) (ct : List Nat) (e : SrtpError)
    (hr : resolveCipher c ct = .error e) : e = .errMKINotFound := by
  unfold resolveCipher at hr
  by_cases hm : 0 < c.mkis.length
  · rw [if_pos hm] at hr
    cases hf : findMKI c.mkis (c.cipher.getMKI ct true) with
    | some v => rw [hf] at hr; cases hr
    | none => rw [hf] at hr; cases hr; rfl
  · rw [if_neg hm] at hr; cases hr

theorem resolveCipher_ok_cases (c : Context) (ct : List Nat) (cip : Cipher)
    (hr : resolveCipher c ct = .ok cip) :
    cip = c.cipher ∨ ∃ k, (k, cip) ∈ c.mkis := by
  unfold resolveCipher at hr
  by_cases hm : 0 < c.mkis.length
  · rw [if_pos hm] at hr
    cases hf : findMKI c.mkis (c.cipher.getMKI ct true) with
    | some v =>
      rw [hf] at hr
      cases hr
      exact Or.inr (findMKI_mem _ _ _ hf)
    | none => rw [hf] at hr; cases hr
  · rw [if_neg hm] at hr
    cases hr
    exact Or.inl rfl

/-- Exhaustive description of the paths of decryptRTP: an error from a tag
length query (context untouched), the too-short rejection (context
untouched), the duplicate rejection, the missing-MKI rejection or a
transform failure (all three leaving the context as after the lazy state
resolution only), or success (replay mark consed on, then the rollover
commit applied, then the state written back). -/
theorem decryptRTP_paths (c : Context) (dst : Buffer) (ct : List Nat)
    (h : RtpHeader) (hl : Nat) :
    (∃ e, decryptRTP c dst ct h hl = (.error e, c)) ∨
    (∃ e, decryptRTP c dst ct h hl = (.error e, (getSRTPSSRCState c h.ssrc).2)) ∨
    (presentedIndex c h ∉ (stateOf c h.ssrc).replayDetector ∧
     ∃ out, decryptRTP c dst ct h hl =
      (.ok out,
       setSRTPSSRCState (getSRTPSSRCState c h.ssrc).2 h.ssrc
         (updateRolloverCount
           { stateOf c h.ssrc with
             replayDetector := presentedIndex c h :: (stateOf c h.ssrc).replayDetector }
           h.sequenceNumber
           (nextRolloverCount (stateOf c h.ssrc) h.sequenceNumber).2.1))) := by
  simp only [presentedIndex, stateOf]
  unfold decryptRTP
  cases hA : c.cipher.authTagRTPLen with
  | error e => exact Or.inl ⟨e, rfl⟩
  | ok aLen =>
    cases hB : c.cipher.aeadAuthTagLen with
    | error e => exact Or.inl ⟨e, rfl⟩
    | ok bLen =>
      dsimp only
      by_cases hshort : ct.length < hl + bLen + c.sendMKI.length + aLen
      · rw [if_pos hshort]
        exact Or.inl ⟨_, rfl⟩
      · rw [if_neg hshort]
        by_cases hidx :
            ((nextRolloverCount (getSRTPSSRCState c h.ssrc).1 h.sequenceNumber).1 <<< 16 |||
              h.sequenceNumber) ∈ ((getSRTPSSRCState c h.ssrc).1).replayDetector
        · rw [if_pos hidx]
          exact Or.inr (Or.inl ⟨_, rfl⟩)
        · rw [if_neg hidx]
          cases hres : resolveCipher c ct with
          | error e => exact Or.inr (Or.inl ⟨e, rfl⟩)
          | ok cip =>
            dsimp only
            cases hdec : cip.decryptFn
                (growBufferSize dst (ct.length - aLen - c.sendMKI.length)) ct h hl
                (nextRolloverCount (getSRTPSSRCState c h.ssrc).1 h.sequenceNumber).1 with
            | error e => exact Or.inr (Or.inl ⟨e, rfl⟩)
            | ok out => exact Or.inr (Or.inr ⟨hidx, out, rfl⟩)

/-- Every error path of decryptRTP leaves the observed Sequence State
(counters, sentinel and replay history alike) of every source unchanged. -/
theorem decryptRTP_error_stateOf (c : Context) (dst : Buffer) (ct : List Nat)
    (h : RtpHeader) (hl : Nat) (e : SrtpError)
    (he : (decryptRTP c dst ct h hl).1 = .error e) :
    ∀ s, stateOf (decryptRTP c dst ct h hl).2 s = stateOf c s := by
  rcases decryptRTP_paths c dst ct h hl with ⟨e1, hEq⟩ | ⟨e1, hEq⟩ | ⟨hidx, out, hEq⟩
  · intro s; rw [hEq]
  · intro s; rw [hEq]; exact stateOf_getSRTPSSRCState c h.ssrc s
  · rw [hEq] at he; cases he

/-- On success decryptRTP writes back the state obtained by first consing
the presented index onto the replay history and then applying the rollover
commit, and the presented index was not in the replay history before. -/
theorem decryptRTP_ok_ctx (c : Context) (dst : Buffer) (ct : List Nat)
    (h : RtpHeader) (hl : Nat) (out : Buffer)
    (ho : (decryptRTP c dst ct h hl).1 = .ok out) :
    presentedIndex c h ∉ (stateOf c h.ssrc).replayDetector ∧
    (decryptRTP c dst ct h hl).2 =
      setSRTPSSRCState (getSRTPSSRCState c h.ssrc).2 h.ssrc
        (updateRolloverCount
          { stateOf c h.ssrc with
            replayDetector := presentedIndex c h :: (stateOf c h.ssrc).replayDetector }
          h.sequenceNumber
          (nextRolloverCount (stateOf c h.ssrc) h.sequenceNumber).2.1) := by
  rcases decryptRTP_paths c dst ct h hl with ⟨e1, hEq⟩ | ⟨e1, hEq⟩ | ⟨hidx, out1, hEq⟩
  · rw [hEq] at ho; cases ho
  · rw [hEq] at ho; cases ho
  · exact ⟨hidx, by rw [hEq]⟩

/-- C1: decrypt atomicity. Whenever decryptRTP returns an error (tag-length
failure, too-short rejection, replay rejection, key-tag lookup failure or
transform failure), the observed Sequence State of every source — rollover
counter, highest sequence, bootstrap sentinel and the replay detector
history — is unchanged; and on success the new state of the packet source
is obtained by first committing the replay mark for the presented index and
only then committing the rollover-count update, in that order. -/
theorem decryptRTP_atomic (c : Context) (dst : Buffer) (ct : List Nat)
    (h : RtpHeader) (hl : Nat) :
    (∀ e, (decryptRTP c dst ct h hl).1 = .error e →
      ∀ s, stateOf (decryptRTP c dst ct h hl).2 s = stateOf c s) ∧
    (∀ out, (decryptRTP c dst ct h hl).1 = .ok out →
      (decryptRTP c dst ct h hl).2 =
        setSRTPSSRCState (getSRTPSSRCState c h.ssrc).2 h.ssrc
          (updateRolloverCount
            { stateOf c h.ssrc with
              replayDetector := presentedIndex c h :: (stateOf c h.ssrc).replayDetector }
            h.sequenceNumber
            (nextRolloverCount (stateOf c h.ssrc) h.sequenceNumber).2.1)) :=
  ⟨fun e he => decryptRTP_error_stateOf c dst ct h hl e he,
   fun out ho => (decryptRTP_ok_ctx c dst ct h hl out ho).2⟩

/-- Witness for C1 at concrete inputs: a replayed packet fails and its
source state is untouched, and a fresh packet succeeds with the mark-then-
commit state write. -/
theorem decryptRTP_atomic_witness :
    ((decryptRTP wStep2.2 wDst [1, 2, 3, 4] wHdr2 2).1 =
      .error (.duplicated "srtp" 5 10)) ∧
    stateOf (decryptRTP wStep2.2 wDst [1, 2, 3, 4] wHdr2 2).2 5 =
      stateOf wStep2.2 5 ∧
    (decryptRTP wCtx0 wDst [1, 2, 3, 4] wHdr1 2).2 =
      setSRTPSSRCState (getSRTPSSRCState wCtx0 wHdr1.ssrc).2 wHdr1.ssrc
        (updateRolloverCount
          { stateOf wCtx0 wHdr1.ssrc with
            replayDetector :=
              presentedIndex wCtx0 wHdr1 :: (stateOf wCtx0 wHdr1.ssrc).replayDetector }
          wHdr1.sequenceNumber
          (nextRolloverCount (stateOf wCtx0 wHdr1.ssrc) wHdr1.sequenceNumber).2.1) :=
  ⟨rfl,
   (decryptRTP_atomic wStep2.2 wDst [1, 2, 3, 4] wHdr2 2).1
     (.duplicated "srtp" 5 10) rfl 5,
   (decryptRTP_atomic wCtx0 wDst [1, 2, 3, 4] wHdr1 2).2
     { storage := [0, 0, 0, 0], len := 4 } rfl⟩

/-- C5: a ciphertext shorter than headerLen + aeadAuthTagLen + len(sendMKI)
+ authTagLen is rejected with errTooShortRTP carrying the observed length,
and the context is returned exactly unchanged: no per-source state is
resolved or created, and since the conclusion is the same for every replay
history, key registry, key-tag extractor and transform, none of them is
consulted. -/
theorem decryptRTP_tooShort_first (c : Context) (dst : Buffer) (ct : List Nat)
    (h : RtpHeader) (hl aLen bLen : Nat)
    (hA : c.cipher.authTagRTPLen = .ok aLen)
    (hB : c.cipher.aeadAuthTagLen = .ok bLen)
    (hshort : ct.length < hl + bLen + c.sendMKI.length + aLen) :
    decryptRTP c dst ct h hl = (.error (.errTooShortRTP ct.length), c) :=
  decryptRTP_tooShort c dst ct h hl aLen bLen hA hB hshort

/-- Witness for C5: a one-byte buffer against a two-byte header length. -/
theorem decryptRTP_tooShort_first_witness :
    decryptRTP wCtx0 wDst [9] wHdr1 2 = (.error (.errTooShortRTP 1), wCtx0) :=
  decryptRTP_tooShort_first wCtx0 wDst [9] wHdr1 2 0 0 rfl rfl (by decide)

/-- Counterexample for C4: after a genuine rollover (so the rollover counter
of source 5 is 1), replaying sequence number 10 is rejected, but the
duplicate-packet error carries 10 — the 16-bit wire sequence number — while
the reconstructed 48-bit packet index of the rejected packet is 65546.
The claim that the error identifies the reconstructed packet index is
therefore false. -/
theorem duplicatedError_index_is_sequenceNumber :
    (decryptRTP wStep2.2 wDst [1, 2, 3, 4] wHdr2 2).1 =
      .error (.duplicated "srtp" 5 10) ∧
    presentedIndex wStep2.2 wHdr2 = 65546 ∧ (10 : Nat) ≠ 65546 :=
  ⟨rfl, rfl, by decide⟩

/-- C4 as amended: when the replay detector rejects the reconstructed index,
decryptRTP fails with a duplicate-packet error that identifies the protocol
name, the source identifier and the 16-bit wire sequence number of the
rejected packet (the low 16 bits of the reconstructed index, not the full
index), without mutating any observed Sequence State and — the conclusion
being fixed for every key registry and transform — without attempting
decryption. -/
theorem decryptRTP_duplicate_rejection (c : Context) (dst : Buffer)
    (ct : List Nat) (h : RtpHeader) (hl aLen bLen : Nat)
    (hA : c.cipher.authTagRTPLen = .ok aLen)
    (hB : c.cipher.aeadAuthTagLen = .ok bLen)
    (hlen : ¬ ct.length < hl + bLen + c.sendMKI.length + aLen)
    (hidx : presentedIndex c h ∈ (stateOf c h.ssrc).replayDetector) :
    decryptRTP c dst ct h hl =
      (.error (.duplicated "srtp" h.ssrc h.sequenceNumber),
       (getSRTPSSRCState c h.ssrc).2) ∧
    ∀ s, stateOf (decryptRTP c dst ct h hl).2 s = stateOf c s := by
  have h1 := decryptRTP_duplicate c dst ct h hl aLen bLen hA hB hlen hidx
  refine ⟨h1, fun s => ?_⟩
  rw [h1]
  exact stateOf_getSRTPSSRCState c h.ssrc s

/-- Witness for the amended C4 at the replay scenario of the counterexample. -/
theorem decryptRTP_duplicate_rejection_witness :
    decryptRTP wStep2.2 wDst [1, 2, 3, 4] wHdr2 2 =
      (.error (.duplicated "srtp" 5 10), (getSRTPSSRCState wStep2.2 5).2) ∧
    stateOf (decryptRTP wStep2.2 wDst [1, 2, 3, 4] wHdr2 2).2 5 = stateOf wStep2.2 5 :=
  ⟨(decryptRTP_duplicate_rejection wStep2.2 wDst [1, 2, 3, 4] wHdr2 2 0 0 rfl rfl
      (by decide) (by decide)).1,
   (decryptRTP_duplicate_rejection wStep2.2 wDst [1, 2, 3, 4] wHdr2 2 0 0 rfl rfl
      (by decide) (by decide)).2 5⟩

/-- C3: when the rollover reconstruction reports session budget overflow,
encryptRTP fails with errExceededMaxPackets, the observed Sequence State of
every source is unchanged, and — the conclusion being the same for every
transform — the encrypt operation of the transform is not invoked. -/
theorem encryptRTP_budget (c : Context) (dst : Buffer) (h : RtpHeader)
    (payload : List Nat)
    (hovf : (nextRolloverCount (stateOf c h.ssrc) h.sequenceNumber).2.2 = true) :
    encryptRTP c dst h payload =
      (.error .errExceededMaxPackets, (getSRTPSSRCState c h.ssrc).2) ∧
    ∀ s, stateOf (encryptRTP c dst h payload).2 s = stateOf c s := by
  simp only [stateOf] at hovf
  have h1 : encryptRTP c dst h payload =
      (.error .errExceededMaxPackets, (getSRTPSSRCState c h.ssrc).2) := by
    unfold encryptRTP
    dsimp only
    rw [if_pos (by rw [hovf])]
  refine ⟨h1, fun s => ?_⟩
  rw [h1]
  exact stateOf_getSRTPSSRCState c h.ssrc s

/-- Witness for C3: source 5 stands at the rollover ceiling 2^32 - 1 with
highest sequence 65535, and sequence 0 arrives, implying a forward wrap. -/
theorem encryptRTP_budget_witness :
    encryptRTP wCtxMax wDst wHdrWrap [7, 7] =
      (.error .errExceededMaxPackets, (getSRTPSSRCState wCtxMax 5).2) ∧
    stateOf (encryptRTP wCtxMax wDst wHdrWrap [7, 7]).2 5 = stateOf wCtxMax 5 :=
  ⟨(encryptRTP_budget wCtxMax wDst wHdrWrap [7, 7] rfl).1,
   (encryptRTP_budget wCtxMax wDst wHdrWrap [7, 7] rfl).2 5⟩

theorem decryptRTP_no_budget_error (c : Context) (dst : Buffer) (ct : List Nat)
    (h : RtpHeader) (hl : Nat) (hnb : ctxNoBudget c) :
    (decryptRTP c dst ct h hl).1 ≠ .error .errExceededMaxPackets := by
  unfold decryptRTP
  cases hA : c.cipher.authTagRTPLen with
  | error e =>
    intro hcon
    dsimp only at hcon
    injection hcon with he
    exact hnb.1.1 (by rw [hA, he])
  | ok aLen =>
    cases hB : c.cipher.aeadAuthTagLen with
    | error e =>
      intro hcon
      dsimp only at hcon
      injection hcon with he
      exact hnb.1.2.1 (by rw [hB, he])
    | ok bLen =>
      dsimp only
      by_cases hshort : ct.length < hl + bLen + c.sendMKI.length + aLen
      · rw [if_pos hshort]
        intro hcon
        injection hcon with he
        cases he
      · rw [if_neg hshort]
        by_cases hidx :
            ((nextRolloverCount (getSRTPSSRCState c h.ssrc).1 h.sequenceNumber).1 <<< 16 |||
              h.sequenceNumber) ∈ ((getSRTPSSRCState c h.ssrc).1).replayDetector
        · rw [if_pos hidx]
          intro hcon
          injection hcon with he
          cases he
        · rw [if_neg hidx]
          cases hres : resolveCipher c ct with
          | error e =>
            intro hcon
            dsimp only at hcon
            injection hcon with he
            rw [resolveCipher_error c ct e hres] at he
            cases he
          | ok cip =>
            dsimp only
            have hcip : ∀ d ct1 h1 hl1 roc,
                cip.decryptFn d ct1 h1 hl1 roc ≠ .error .errExceededMaxPackets := by
              rcases resolveCipher_ok_cases c ct cip hres with hc | ⟨k, hk⟩
              · rw [hc]; exact hnb.1.2.2
              · exact (hnb.2 (k, cip) hk).2.2
            cases hdec : cip.decryptFn
                (growBufferSize dst (ct.length - aLen - c.sendMKI.length)) ct h hl
                (nextRolloverCount (getSRTPSSRCState c h.ssrc).1 h.sequenceNumber).1 with
            | error e =>
              intro hcon
              injection hcon with he
              exact hcip _ _ _ _ _ (by rw [hdec, he])
            | ok out =>
              intro hcon
              injection hcon

/-- C6: the decrypt path never enforces the sender-side budget. Provided no
transform operation itself produces the budget error (in the source only the
sender-side rollover reconstruction raises it), decryptRTP never fails with
errExceededMaxPackets; and when the rollover reconstruction reports
overflow, the call proceeds unchanged, using the reconstructed index for
the replay check — rejecting a replayed index and otherwise invoking the
transform — exactly as without overflow. -/
theorem decryptRTP_ignores_overflow (c : Context) (dst : Buffer)
    (ct : List Nat) (h : RtpHeader) (hl : Nat) (hnb : ctxNoBudget c) :
    (decryptRTP c dst ct h hl).1 ≠ .error .errExceededMaxPackets ∧
    (∀ aLen bLen, c.cipher.authTagRTPLen = .ok aLen →
      c.cipher.aeadAuthTagLen = .ok bLen →
      ¬ ct.length < hl + bLen + c.sendMKI.length + aLen →
      (nextRolloverCount (stateOf c h.ssrc) h.sequenceNumber).2.2 = true →
      presentedIndex c h ∈ (stateOf c h.ssrc).replayDetector →
      (decryptRTP c dst ct h hl).1 =
        .error (.duplicated "srtp" h.ssrc h.sequenceNumber)) ∧
    (∀ aLen bLen cip, c.cipher.authTagRTPLen = .ok aLen →
      c.cipher.aeadAuthTagLen = .ok bLen →
      ¬ ct.length < hl + bLen + c.sendMKI.length + aLen →
      (nextRolloverCount (stateOf c h.ssrc) h.sequenceNumber).2.2 = true →
      presentedIndex c h ∉ (stateOf c h.ssrc).replayDetector →
      resolveCipher c ct = .ok cip →
      (decryptRTP c dst ct h hl).1 =
        cip.decryptFn (growBufferSize dst (ct.length - aLen - c.sendMKI.length))
          ct h hl (nextRolloverCount (stateOf c h.ssrc) h.sequenceNumber).1) := by
  refine ⟨decryptRTP_no_budget_error c dst ct h hl hnb, ?_, ?_⟩
  · intro aLen bLen hA hB hlen _hovf hidx
    rw [decryptRTP_duplicate c dst ct h hl aLen bLen hA hB hlen hidx]
  · intro aLen bLen cip hA hB hlen _hovf hidx hres
    exact decryptRTP_transform c dst ct h hl aLen bLen cip hA hB hlen hidx hres

/-- Witness for C6 with the rollover counter at its ceiling, so the
reconstruction reports overflow, yet the decrypt succeeds. -/
theorem decryptRTP_ignores_overflow_witness :
    ((decryptRTP wCtxMax wDst [1, 2, 3, 4] wHdrWrap 2).1 ≠
      .error .errExceededMaxPackets) ∧
    (decryptRTP wCtxMax wDst [1, 2, 3, 4] wHdrWrap 2).1 =
      wCipher.decryptFn (growBufferSize wDst 4) [1, 2, 3, 4] wHdrWrap 2
        (nextRolloverCount (stateOf wCtxMax 5) 0).1 :=
  ⟨(decryptRTP_ignores_overflow wCtxMax wDst [1, 2, 3, 4] wHdrWrap 2
      ⟨⟨by simp [wCtxMax, wCipher], by simp [wCtxMax, wCipher],
        by intro d ct1 h1 hl1 roc; simp [wCtxMax, wCipher]⟩,
       by intro p hp; simp [wCtxMax] at hp⟩).1,
   (decryptRTP_ignores_overflow wCtxMax wDst [1, 2, 3, 4] wHdrWrap 2
      ⟨⟨by simp [wCtxMax, wCipher], by simp [wCtxMax, wCipher],
        by intro d ct1 h1 hl1 roc; simp [wCtxMax, wCipher]⟩,
       by intro p hp; simp [wCtxMax] at hp⟩).2.2 0 0 wCipher rfl rfl
      (by decide) rfl (by decide) rfl⟩

/-- C7: on the path that reaches the transform, decryptRTP hands it the
destination buffer grown to the exact length
len(ciphertext) - authTagLen - len(sendMKI); the grown buffer has that
length, capacity at least that length, and reuses the backing storage of
the caller-supplied buffer whenever its capacity already suffices. -/
theorem decryptRTP_dst_sizing (c : Context) (dst : Buffer) (ct : List Nat)
    (h : RtpHeader) (hl aLen bLen : Nat) (cip : Cipher)
    (hA : c.cipher.authTagRTPLen = .ok aLen)
    (hB : c.cipher.aeadAuthTagLen = .ok bLen)
    (hlen : ¬ ct.length < hl + bLen + c.sendMKI.length + aLen)
    (hidx : presentedIndex c h ∉ (stateOf c h.ssrc).replayDetector)
    (hres : resolveCipher c ct = .ok cip) :
    (decryptRTP c dst ct h hl).1 =
      cip.decryptFn (growBufferSize dst (ct.length - aLen - c.sendMKI.length))
        ct h hl (nextRolloverCount (stateOf c h.ssrc) h.sequenceNumber).1 ∧
    (growBufferSize dst (ct.length - aLen - c.sendMKI.length)).len =
      ct.length - aLen - c.sendMKI.length ∧
    ct.length - aLen - c.sendMKI.length ≤
      (growBufferSize dst (ct.length - aLen - c.sendMKI.length)).storage.length ∧
    (ct.length - aLen - c.sendMKI.length ≤ dst.storage.length →
      (growBufferSize dst (ct.length - aLen - c.sendMKI.length)).storage =
        dst.storage) :=
  ⟨decryptRTP_transform c dst ct h hl aLen bLen cip hA hB hlen hidx hres,
   growBufferSize_len dst _, growBufferSize_capacity dst _,
   growBufferSize_reuse dst _⟩

/-- Witness for C7: a four-byte ciphertext with zero-length tags and a
reusable five-byte destination buffer. -/
theorem decryptRTP_dst_sizing_witness :
    (decryptRTP wCtx0 { storage := [8, 8, 8, 8, 8], len := 0 } [1, 2, 3, 4]
        wHdr1 2).1 =
      wCipher.decryptFn
        (growBufferSize { storage := [8, 8, 8, 8, 8], len := 0 } 4)
        [1, 2, 3, 4] wHdr1 2 (nextRolloverCount (stateOf wCtx0 5) 65535).1 ∧
    (growBufferSize { storage := [8, 8, 8, 8, 8], len := 0 } 4).len = 4 ∧
    (growBufferSize { storage := [8, 8, 8, 8, 8], len := 0 } 4).storage =
      [8, 8, 8, 8, 8] :=
  ⟨(decryptRTP_dst_sizing wCtx0 { storage := [8, 8, 8, 8, 8], len := 0 }
      [1, 2, 3, 4] wHdr1 2 0 0 wCipher rfl rfl (by decide) (by decide) rfl).1,
   (decryptRTP_dst_sizing wCtx0 { storage := [8, 8, 8, 8, 8], len := 0 }
      [1, 2, 3, 4] wHdr1 2 0 0 wCipher rfl rfl (by decide) (by decide) rfl).2.1,
   (decryptRTP_dst_sizing wCtx0 { storage := [8, 8, 8, 8, 8], len := 0 }
      [1, 2, 3, 4] wHdr1 2 0 0 wCipher rfl rfl (by decide) (by decide)
      rfl).2.2.2 (by decide)⟩

/-- C10: on every decrypt — in particular on the multi-key path, where the
wire-extracted MKI selects the cipher — both the minimum-length threshold
and the destination sizing use the length of the configured send-side MKI,
not the length of the wire-extracted MKI. -/
theorem decryptRTP_mkiLen_from_sendMKI (c : Context) (dst : Buffer)
    (ct : List Nat) (h : RtpHeader) (hl aLen bLen : Nat)
    (hA : c.cipher.authTagRTPLen = .ok aLen)
    (hB : c.cipher.aeadAuthTagLen = .ok bLen)
    (hmk : 0 < c.mkis.length) :
    (ct.length < hl + bLen + c.sendMKI.length + aLen →
      decryptRTP c dst ct h hl = (.error (.errTooShortRTP ct.length), c)) ∧
    (∀ cip, ¬ ct.length < hl + bLen + c.sendMKI.length + aLen →
      presentedIndex c h ∉ (stateOf c h.ssrc).replayDetector →
      findMKI c.mkis (c.cipher.getMKI ct true) = some cip →
      (decryptRTP c dst ct h hl).1 =
        cip.decryptFn (growBufferSize dst (ct.length - aLen - c.sendMKI.length))
          ct h hl (nextRolloverCount (stateOf c h.ssrc) h.sequenceNumber).1) := by
  constructor
  · intro hshort
    exact decryptRTP_tooShort c dst ct h hl aLen bLen hA hB hshort
  · intro cip hlen hidx hfind
    have hres : resolveCipher c ct = .ok cip := by
      unfold resolveCipher
      rw [if_pos hmk, hfind]
    exact decryptRTP_transform c dst ct h hl aLen bLen cip hA hB hlen hidx hres

/-- Witness for C10: the send-side MKI has length 1 while the wire-extracted
MKI has length 2; the threshold (2 + 0 + 1 + 0 = 3) and the sizing
(5 - 0 - 1 = 4) both use length 1. -/
theorem decryptRTP_mkiLen_from_sendMKI_witness :
    decryptRTP wCtxMulti wDst [1, 2] wHdr1 2 =
      (.error (.errTooShortRTP 2), wCtxMulti) ∧
    (decryptRTP wCtxMulti wDst [1, 2, 3, 4, 5] wHdr1 2).1 =
      wCipher.decryptFn (growBufferSize wDst 4) [1, 2, 3, 4, 5] wHdr1 2
        (nextRolloverCount (stateOf wCtxMulti 5) 65535).1 :=
  ⟨(decryptRTP_mkiLen_from_sendMKI wCtxMulti wDst [1, 2] wHdr1 2 0 0 rfl rfl
      (by decide)).1 (by decide),
   (decryptRTP_mkiLen_from_sendMKI wCtxMulti wDst [1, 2, 3, 4, 5] wHdr1 2 0 0
      rfl rfl (by decide)).2 wCipher (by decide) (by decide) rfl⟩

theorem decryptRTP_seenOf_mono (c : Context) (dst : Buffer) (ct : List Nat)
    (h : RtpHeader) (hl : Nat) (s x : Nat) (hx : x ∈ seenOf c s) :
    x ∈ seenOf (decryptRTP c dst ct h hl).2 s := by
  rcases decryptRTP_paths c dst ct h hl with ⟨e, hEq⟩ | ⟨e, hEq⟩ | ⟨hidx, out, hEq⟩
  · rw [hEq]; exact hx
  · rw [hEq]
    unfold seenOf
    rw [stateOf_getSRTPSSRCState]
    exact hx
  · rw [hEq]
    unfold seenOf
    dsimp only
    rw [stateOf_setSRTPSSRCState]
    by_cases hs : h.ssrc = s
    · rw [if_pos hs, updateRolloverCount_replayDetector]
      subst hs
      exact List.mem_cons_of_mem _ hx
    · rw [if_neg hs, stateOf_getSRTPSSRCState]
      exact hx

theorem decryptRTP_ok_seen (c : Context) (dst : Buffer) (ct : List Nat)
    (h : RtpHeader) (hl : Nat) (out : Buffer)
    (ho : (decryptRTP c dst ct h hl).1 = .ok out) :
    seenOf (decryptRTP c dst ct h hl).2 h.ssrc =
      presentedIndex c h :: seenOf c h.ssrc := by
  obtain ⟨hidx, hctx⟩ := decryptRTP_ok_ctx c dst ct h hl out ho
  rw [hctx]
  unfold seenOf
  rw [stateOf_setSRTPSSRCState, if_pos rfl, updateRolloverCount_replayDetector]

theorem runDecrypts_not_emitted (ds : List DecIn) :
    ∀ (c : Context) (s i : Nat), i ∈ seenOf c s → (s, i) ∉ (runDecrypts c ds).1 := by
  induction ds with
  | nil =>
    intro c s i hseen
    simp [runDecrypts]
  | cons d ds ih =>
    intro c s i hseen
    unfold runDecrypts
    dsimp only
    cases hr : (decryptRTP c d.dst d.ciphertext d.header d.headerLen).1 with
    | error e =>
      exact ih _ s i (decryptRTP_seenOf_mono c d.dst d.ciphertext d.header
        d.headerLen s i hseen)
    | ok out =>
      intro hmem
      rcases List.mem_cons.mp hmem with hhd | htl
      · obtain ⟨hs, hi⟩ := Prod.mk.injEq .. ▸ hhd
        subst hs
        subst hi
        exact (decryptRTP_ok_ctx c d.dst d.ciphertext d.header d.headerLen
          out hr).1 hseen
      · exact ih _ s i (decryptRTP_seenOf_mono c d.dst d.ciphertext d.header
          d.headerLen s i hseen) htl

theorem runDecrypts_nodup (ds : List DecIn) :
    ∀ c : Context, ((runDecrypts c ds).1).Nodup := by
  induction ds with
  | nil =>
    intro c
    simp [runDecrypts]
  | cons d ds ih =>
    intro c
    unfold runDecrypts
    dsimp only
    cases hr : (decryptRTP c d.dst d.ciphertext d.header d.headerLen).1 with
    | error e => exact ih _
    | ok out =>
      refine List.nodup_cons.mpr ⟨?_, ih _⟩
      apply runDecrypts_not_emitted
      rw [decryptRTP_ok_seen c d.dst d.ciphertext d.header d.headerLen out hr]
      exact List.mem_cons_self _ _

/-- C2: the index presented to the replay detector is always
(guessRoc <<< 16) ||| wireSequenceNumber — visible in the replay history,
which on success gains exactly that value — and along any session trace of
decryptRTP calls the pairs (source identifier, presented index) of the
successful calls are pairwise distinct: the index is unique per source for
the life of the session. -/
theorem decryptRTP_index_unique (c : Context) :
    (∀ (dst : Buffer) (ct : List Nat) (h : RtpHeader) (hl : Nat) (out : Buffer),
      (decryptRTP c dst ct h hl).1 = .ok out →
      seenOf (decryptRTP c dst ct h hl).2 h.ssrc =
        (((nextRolloverCount (stateOf c h.ssrc) h.sequenceNumber).1 <<< 16) |||
          h.sequenceNumber) :: seenOf c h.ssrc) ∧
    (∀ ds : List DecIn, ((runDecrypts c ds).1).Nodup) :=
  ⟨fun dst ct h hl out ho => decryptRTP_ok_seen c dst ct h hl out ho,
   fun ds => runDecrypts_nodup ds c⟩

/-- Witness for C2: the concrete three-call trace (bootstrap, wrap, replay)
emits exactly the indices 65535 and 65546 for source 5, with no duplicate. -/
theorem decryptRTP_index_unique_witness :
    seenOf (decryptRTP wCtx0 wDst [1, 2, 3, 4] wHdr1 2).2 5 =
      (((nextRolloverCount (stateOf wCtx0 5) 65535).1 <<< 16) ||| 65535) ::
        seenOf wCtx0 5 ∧
    ((runDecrypts wCtx0 wDs).1).Nodup ∧
    (runDecrypts wCtx0 wDs).1 = [(5, 65535), (5, 65546)] :=
  ⟨(decryptRTP_index_unique wCtx0).1 wDst [1, 2, 3, 4] wHdr1 2
      { storage := [0, 0, 0, 0], len := 4 } rfl,
   (decryptRTP_index_unique wCtx0).2 wDs,
   rfl⟩

theorem setSRTPSSRCState_cipher (c : Context) (k : Nat) (v : SrtpSSRCState) :
    (setSRTPSSRCState c k v).cipher = c.cipher := rfl

theorem getSRTPSSRCState_cipher (c : Context) (ssrc : Nat) :
    ((getSRTPSSRCState c ssrc).2).cipher = c.cipher := by
  unfold getSRTPSSRCState
  cases findState c.srtpSSRCStates ssrc <;> rfl

/-- Characterization of encryptRTP when the reconstruction reports no
overflow: the state commit happens unconditionally before the transform
call, whose result — error or not — is returned as is. -/
theorem encryptRTP_no_overflow (c : Context) (dst : Buffer) (h : RtpHeader)
    (payload : List Nat)
    (hovf : (nextRolloverCount (stateOf c h.ssrc) h.sequenceNumber).2.2 = false) :
    encryptRTP c dst h payload =
      (c.cipher.encryptFn dst h payload
        (nextRolloverCount (stateOf c h.ssrc) h.sequenceNumber).1,
       setSRTPSSRCState (getSRTPSSRCState c h.ssrc).2 h.ssrc
         (updateRolloverCount (stateOf c h.ssrc) h.sequenceNumber
           (nextRolloverCount (stateOf c h.ssrc) h.sequenceNumber).2.1)) := by
  simp only [stateOf] at hovf ⊢
  unfold encryptRTP
  dsimp only
  rw [if_neg (by rw [hovf]; exact Bool.false_ne_true)]
  rw [setSRTPSSRCState_cipher, getSRTPSSRCState_cipher]

/-- C9: both public entry points treat the optional caller-supplied header
purely as an output parameter: a nil header is replaced by a fresh one and
either way the header actually used is re-unmarshaled from the input bytes
(per the codec contract that unmarshal repopulates every field), so the
result never depends on the supplied header value; and when unmarshaling
fails the error is returned with the context unchanged. -/
theorem publicEntries_header_outParam (u : HeaderCodec) (c : Context)
    (dst : Buffer) (bytes : List Nat) :
    (∀ h1 h2 : Option RtpHeader,
      DecryptRTP u c dst bytes h1 = DecryptRTP u c dst bytes h2) ∧
    (∀ h1 h2 : Option RtpHeader,
      EncryptRTP u c dst bytes h1 = EncryptRTP u c dst bytes h2) ∧
    (∀ e, u bytes = .error e →
      DecryptRTP u c dst bytes none = (.error e, c) ∧
      EncryptRTP u c dst bytes none = (.error e, c)) := by
  refine ⟨fun h1 h2 => rfl, fun h1 h2 => rfl, fun e he => ⟨?_, ?_⟩⟩
  · unfold DecryptRTP
    rw [he]
  · unfold EncryptRTP
    rw [he]

/-- Witness for C9: a supplied header with arbitrary stale fields gives the
same result as none, and a one-byte buffer fails to parse, returning the
parse error with the context unchanged. -/
theorem publicEntries_header_outParam_witness :
    DecryptRTP wCodec wCtx0 wDst [5, 7, 20, 30] (some wHdr1) =
      DecryptRTP wCodec wCtx0 wDst [5, 7, 20, 30] none ∧
    EncryptRTP wCodec wCtx0 wDst [5, 7, 20, 30] (some wHdr1) =
      EncryptRTP wCodec wCtx0 wDst [5, 7, 20, 30] none ∧
    DecryptRTP wCodec wCtx0 wDst [9] none = (.error .headerParseFailure, wCtx0) ∧
    EncryptRTP wCodec wCtx0 wDst [9] none = (.error .headerParseFailure, wCtx0) :=
  ⟨(publicEntries_header_outParam wCodec wCtx0 wDst [5, 7, 20, 30]).1
      (some wHdr1) none,
   (publicEntries_header_outParam wCodec wCtx0 wDst [5, 7, 20, 30]).2.1
      (some wHdr1) none,
   ((publicEntries_header_outParam wCodec wCtx0 wDst [9]).2.2
      .headerParseFailure rfl).1,
   ((publicEntries_header_outParam wCodec wCtx0 wDst [9]).2.2
      .headerParseFailure rfl).2⟩

/-- C8: round trip. Under the collaborator contracts — the codec parses the
plaintext and the ciphertext to the same header and header length, the
transform encrypt produces the ciphertext, the resolved decrypt transform
(single-key or selected by key tag) inverts it at the same rollover count,
the decrypt-side reconstruction reproduces the encrypt-side rollover count
and the index is fresh — DecryptRTP applied to the output of EncryptRTP
returns a buffer whose content is exactly the original plaintext, so the
payload past the header is reproduced exactly. -/
theorem roundTrip (u : HeaderCodec) (cE cd : Context) (dst dst2 : Buffer)
    (plaintext : List Nat) (h : RtpHeader) (hl : Nat) (ctBuf outBuf : Buffer)
    (aLen bLen : Nat) (cip : Cipher)
    (hu : u plaintext = .ok (h, hl))
    (hovf : (nextRolloverCount (stateOf cE h.ssrc) h.sequenceNumber).2.2 = false)
    (henc : cE.cipher.encryptFn dst h (plaintext.drop hl)
        (nextRolloverCount (stateOf cE h.ssrc) h.sequenceNumber).1 = .ok ctBuf)
    (hu2 : u (bufView ctBuf) = .ok (h, hl))
    (hA : cd.cipher.authTagRTPLen = .ok aLen)
    (hB : cd.cipher.aeadAuthTagLen = .ok bLen)
    (hlen : ¬ (bufView ctBuf).length < hl + bLen + cd.sendMKI.length + aLen)
    (hroc : (nextRolloverCount (stateOf cd h.ssrc) h.sequenceNumber).1 =
        (nextRolloverCount (stateOf cE h.ssrc) h.sequenceNumber).1)
    (hidx : presentedIndex cd h ∉ (stateOf cd h.ssrc).replayDetector)
    (hres : resolveCipher cd (bufView ctBuf) = .ok cip)
    (hdec : cip.decryptFn
        (growBufferSize dst2 ((bufView ctBuf).length - aLen - cd.sendMKI.length))
        (bufView ctBuf) h hl
        (nextRolloverCount (stateOf cE h.ssrc) h.sequenceNumber).1 = .ok outBuf)
    (hout : bufView outBuf = plaintext) :
    (EncryptRTP u cE dst plaintext none).1 = .ok ctBuf ∧
    (DecryptRTP u cd dst2 (bufView ctBuf) none).1 = .ok outBuf ∧
    bufView outBuf = plaintext ∧
    (bufView outBuf).drop hl = plaintext.drop hl := by
  refine ⟨?_, ?_, hout, by rw [hout]⟩
  · unfold EncryptRTP
    rw [hu]
    dsimp only
    rw [encryptRTP_no_overflow cE dst h (plaintext.drop hl) hovf]
    dsimp only
    rw [henc]
  · unfold DecryptRTP
    rw [hu2]
    dsimp only
    rw [decryptRTP_ok_eq cd dst2 (bufView ctBuf) h hl aLen bLen cip outBuf
      hA hB hlen hidx hres (by rw [hroc]; exact hdec)]

/-- Witness for C8 in both configurations: plaintext [5, 7, 20, 30] (header
source 5, sequence 7, length 2, payload [20, 30]) is encrypted and then
decrypted by the post-encrypt context, reproducing the plaintext, once with
the single-key context and once with the multi-key-tag context. -/
theorem roundTrip_witness :
    ((EncryptRTP wCodec wCtxRT wDst [5, 7, 20, 30] none).1 =
      .ok { storage := [5, 7, 20, 30], len := 4 } ∧
     (DecryptRTP wCodec (EncryptRTP wCodec wCtxRT wDst [5, 7, 20, 30] none).2
        wDst (bufView { storage := [5, 7, 20, 30], len := 4 }) none).1 =
      .ok { storage := [5, 7, 20, 30], len := 4 } ∧
     bufView { storage := [5, 7, 20, 30], len := 4 } = [5, 7, 20, 30]) ∧
    ((EncryptRTP wCodec wCtxRTM wDst [5, 7, 20, 30] none).1 =
      .ok { storage := [5, 7, 20, 30, 7], len := 5 } ∧
     (DecryptRTP wCodec (EncryptRTP wCodec wCtxRTM wDst [5, 7, 20, 30] none).2
        wDst (bufView { storage := [5, 7, 20, 30, 7], len := 5 }) none).1 =
      .ok { storage := [5, 7, 20, 30], len := 4 } ∧
     bufView { storage := [5, 7, 20, 30], len := 4 } = [5, 7, 20, 30]) := by
  constructor
  · have hrt := roundTrip wCodec wCtxRT
      (EncryptRTP wCodec wCtxRT wDst [5, 7, 20, 30] none).2 wDst wDst
      [5, 7, 20, 30] wHdrRT 2 { storage := [5, 7, 20, 30], len := 4 }
      { storage := [5, 7, 20, 30], len := 4 } 0 0 wCipherRT
      rfl rfl rfl rfl rfl rfl (by decide) rfl (by decide) rfl rfl rfl
    exact ⟨hrt.1, hrt.2.1, hrt.2.2.1⟩
  · have hrt := roundTrip wCodec wCtxRTM
      (EncryptRTP wCodec wCtxRTM wDst [5, 7, 20, 30] none).2 wDst wDst
      [5, 7, 20, 30] wHdrRT 2 { storage := [5, 7, 20, 30, 7], len := 5 }
      { storage := [5, 7, 20, 30], len := 4 } 0 0 wCipherRT2
      rfl rfl rfl rfl rfl rfl (by decide) rfl (by decide) rfl rfl rfl
    exact ⟨hrt.1, hrt.2.1, hrt.2.2.1⟩

end Srtp
